import Mathlib

/-!
Verification of the meme-chatbot frontend (Go sources `frontend-cli/src/main.go`
and `src/main.go`) against its natural-language specification.

The Go code is shallowly embedded: Go structs become Lean structures, Go `int`
becomes `Int`, Go `float64` becomes `ℚ` (all constants and comparisons in the
source are exact in decimal, so the rational embedding is faithful for them),
and the in-place pointer-receiver mutations of the source become pure functions
returning the updated record.
-/

namespace MemeChat

/-- Embedding of the Go struct `LlmGenerationParameters` from
`frontend-cli/src/main.go` (json tags: model, prompt, top_k, top_p,
repeat_penalty, temperature, stream, max_tokens). -/
@[ext]
structure LlmGenerationParameters where
  ModelName : String
  Prompt : String
  TopK : Int
  TopP : ℚ
  RepeatPenalty : ℚ
  Temperature : ℚ
  Stream : Bool
  MaxTokens : Int
deriving DecidableEq

/-- Embedding of `(*LlmGenerationParameters).CheckAndFix` from
`frontend-cli/src/main.go`.  The Go method mutates its receiver through five
sequential `if` statements; each `if` reads only the field it writes, so the
sequential mutation is reproduced here as a chain of `let` bindings. -/
def CheckAndFix (lgp : LlmGenerationParameters) : LlmGenerationParameters :=
  let a := if lgp.TopK ≤ 0 then { lgp with TopK := 40 } else lgp
  let b := if a.TopP ≤ 0 ∨ 1 < a.TopP then { a with TopP := 95/100 } else a
  let c := if b.RepeatPenalty ≤ 0 then { b with RepeatPenalty := 11/10 } else b
  let d := if c.Temperature ≤ 0 then { c with Temperature := 8/10 } else c
  if d.MaxTokens ≤ 0 then { d with MaxTokens := 16 } else d

/-- Embedding of `(LlmGenerationParameters).SetPrompt` from
`frontend-cli/src/main.go`: a VALUE receiver, so the Go method operates on a
copy and returns it; the caller's record is unchanged. -/
def SetPrompt (lgp : LlmGenerationParameters) (prompt : String) :
    LlmGenerationParameters :=
  { lgp with Prompt := prompt }

/-- The Go constant `CHAT_TEMPLATE` (a raw string literal with a `%s` verb). -/
def CHAT_TEMPLATE : String :=
  "<start_of_turn>user\n%s<end_of_turn>\n<start_of_turn>model\n"

/-- `fmt.Sprintf` restricted to the use in this program: one `%s` verb and one
string argument; the argument is substituted for the verb literally (Sprintf
does not re-scan the argument for verbs). -/
def spliceFormat : List Char → String → List Char
  | [], _ => []
  | '%' :: 's' :: rest, arg => arg.data ++ rest
  | ch :: rest, arg => ch :: spliceFormat rest arg

/-- Embedding of `FormatPrompt` from `frontend-cli/src/main.go`:
`fmt.Sprintf(CHAT_TEMPLATE, prompt)`. -/
def FormatPrompt (prompt : String) : String :=
  String.mk (spliceFormat CHAT_TEMPLATE.data prompt)

/-- Validity of the numeric fields (§3 of the spec): top-k > 0, 0 < top-p ≤ 1,
repeat-penalty > 0, temperature > 0, max-tokens > 0. -/
def ValidParams (p : LlmGenerationParameters) : Prop :=
  0 < p.TopK ∧ 0 < p.TopP ∧ p.TopP ≤ 1 ∧ 0 < p.RepeatPenalty ∧
    0 < p.Temperature ∧ 0 < p.MaxTokens

theorem checkAndFix_topK (p : LlmGenerationParameters) :
    (CheckAndFix p).TopK = if p.TopK ≤ 0 then 40 else p.TopK := by
  simp only [CheckAndFix]
  split_ifs <;> rfl

theorem checkAndFix_topP (p : LlmGenerationParameters) :
    (CheckAndFix p).TopP = if p.TopP ≤ 0 ∨ 1 < p.TopP then 95/100 else p.TopP := by
  simp only [CheckAndFix]
  split_ifs <;> rfl

theorem checkAndFix_repeatPenalty (p : LlmGenerationParameters) :
    (CheckAndFix p).RepeatPenalty =
      if p.RepeatPenalty ≤ 0 then 11/10 else p.RepeatPenalty := by
  simp only [CheckAndFix]
  split_ifs <;> rfl

theorem checkAndFix_temperature (p : LlmGenerationParameters) :
    (CheckAndFix p).Temperature =
      if p.Temperature ≤ 0 then 8/10 else p.Temperature := by
  simp only [CheckAndFix]
  split_ifs <;> rfl

theorem checkAndFix_maxTokens (p : LlmGenerationParameters) :
    (CheckAndFix p).MaxTokens = if p.MaxTokens ≤ 0 then 16 else p.MaxTokens := by
  simp only [CheckAndFix]
  split_ifs <;> rfl

theorem checkAndFix_modelName (p : LlmGenerationParameters) :
    (CheckAndFix p).ModelName = p.ModelName := by
  simp only [CheckAndFix]
  split_ifs <;> rfl

theorem checkAndFix_prompt (p : LlmGenerationParameters) :
    (CheckAndFix p).Prompt = p.Prompt := by
  simp only [CheckAndFix]
  split_ifs <;> rfl

theorem checkAndFix_stream (p : LlmGenerationParameters) :
    (CheckAndFix p).Stream = p.Stream := by
  simp only [CheckAndFix]
  split_ifs <;> rfl

theorem checkAndFix_valid (p : LlmGenerationParameters) :
    ValidParams (CheckAndFix p) := by
  refine ⟨?_, ?_, ?_, ?_, ?_, ?_⟩
  · rw [checkAndFix_topK]; split_ifs with h <;> omega
  · rw [checkAndFix_topP]; split_ifs with h
    · norm_num
    · push_neg at h; exact h.1
  · rw [checkAndFix_topP]; split_ifs with h
    · norm_num
    · push_neg at h; exact h.2
  · rw [checkAndFix_repeatPenalty]; split_ifs with h
    · norm_num
    · linarith
  · rw [checkAndFix_temperature]; split_ifs with h
    · norm_num
    · linarith
  · rw [checkAndFix_maxTokens]; split_ifs with h <;> omega

theorem checkAndFix_eq_of_valid (p : LlmGenerationParameters)
    (hv : ValidParams p) : CheckAndFix p = p := by
  obtain ⟨h1, h2, h3, h4, h5, h6⟩ := hv
  ext
  · rw [checkAndFix_modelName]
  · rw [checkAndFix_prompt]
  · rw [checkAndFix_topK, if_neg (by omega)]
  · rw [checkAndFix_topP, if_neg (by push_neg; exact ⟨h2, h3⟩)]
  · rw [checkAndFix_repeatPenalty, if_neg (by linarith)]
  · rw [checkAndFix_temperature, if_neg (by linarith)]
  · rw [checkAndFix_stream]
  · rw [checkAndFix_maxTokens, if_neg (by omega)]

/-- C4: `CheckAndFix` is a total function (it is a plain Lean `def`, no error
path); it replaces each out-of-domain numeric field (≤ 0, and additionally
> 1.0 for top-p) by its documented default (top-k=40, top-p=0.95,
repeat-penalty=1.1, temperature=0.8, max-tokens=16), leaves in-domain fields
(and the non-numeric fields) unchanged, and the result always satisfies the
validity invariant top-k > 0, 0 < top-p ≤ 1, repeat-penalty > 0,
temperature > 0, max-tokens > 0. -/
theorem C4_checkAndFix_defaults_and_valid (p : LlmGenerationParameters) :
    (CheckAndFix p).TopK = (if p.TopK ≤ 0 then 40 else p.TopK) ∧
    (CheckAndFix p).TopP = (if p.TopP ≤ 0 ∨ 1 < p.TopP then 95/100 else p.TopP) ∧
    (CheckAndFix p).RepeatPenalty =
      (if p.RepeatPenalty ≤ 0 then 11/10 else p.RepeatPenalty) ∧
    (CheckAndFix p).Temperature =
      (if p.Temperature ≤ 0 then 8/10 else p.Temperature) ∧
    (CheckAndFix p).MaxTokens = (if p.MaxTokens ≤ 0 then 16 else p.MaxTokens) ∧
    (CheckAndFix p).ModelName = p.ModelName ∧
    (CheckAndFix p).Prompt = p.Prompt ∧
    (CheckAndFix p).Stream = p.Stream ∧
    ValidParams (CheckAndFix p) :=
  ⟨checkAndFix_topK p, checkAndFix_topP p, checkAndFix_repeatPenalty p,
   checkAndFix_temperature p, checkAndFix_maxTokens p, checkAndFix_modelName p,
   checkAndFix_prompt p, checkAndFix_stream p, checkAndFix_valid p⟩

/-- C5: normalization is idempotent: applying `CheckAndFix` twice gives the
same record as applying it once. -/
theorem C5_checkAndFix_idempotent (p : LlmGenerationParameters) :
    CheckAndFix (CheckAndFix p) = CheckAndFix p :=
  checkAndFix_eq_of_valid (CheckAndFix p) (checkAndFix_valid p)

/-- C7: `FormatPrompt` substitutes its argument into the fixed chat template:
the result is always the fixed opening marker, then the argument, then the
fixed closing markers; in particular `FormatPrompt "hi"` is exactly the
expected literal.  `FormatPrompt` is a plain Lean `def`, hence pure and total
(the empty string is covered by the universally quantified part). -/
theorem C7_formatPrompt_template (s : String) :
    FormatPrompt s =
      "<start_of_turn>user\n" ++ s ++ "<end_of_turn>\n<start_of_turn>model\n" ∧
    FormatPrompt "hi" =
      "<start_of_turn>user\nhi<end_of_turn>\n<start_of_turn>model\n" := by
  constructor
  · rfl
  · rfl

/-- C10: `SetPrompt` has a value receiver: it returns a copy of its receiver
whose `Prompt` field is the given string and whose every other field is the
receiver's.  In this pure embedding the receiver itself is a value and cannot
be mutated, which is exactly the frame condition the value receiver gives the
Go caller (the driver's reusable `param_template` is the same record on every
loop iteration). -/
theorem C10_setPrompt_copy (t : LlmGenerationParameters) (s : String) :
    (SetPrompt t s).Prompt = s ∧
    (SetPrompt t s).ModelName = t.ModelName ∧
    (SetPrompt t s).TopK = t.TopK ∧
    (SetPrompt t s).TopP = t.TopP ∧
    (SetPrompt t s).RepeatPenalty = t.RepeatPenalty ∧
    (SetPrompt t s).Temperature = t.Temperature ∧
    (SetPrompt t s).Stream = t.Stream ∧
    (SetPrompt t s).MaxTokens = t.MaxTokens :=
  ⟨rfl, rfl, rfl, rfl, rfl, rfl, rfl, rfl⟩

/-! JSON document model and parser.

`ParseResponse` in the Go source calls `encoding/json.Unmarshal`, which is
standard-library code, not repository code.  Its behaviour relevant here is
embedded executably: a JSON text is parsed in full (Go's `Unmarshal` validates
the whole input before decoding, so a syntax error decodes nothing), and a
syntactically valid document is decoded field by field, any field whose JSON
value has the wrong shape being left at its zero value. -/

/-- A parsed JSON document.  `num i isInt` keeps the integer part and whether
the literal was a pure integer (no fraction, no exponent); Go only decodes
pure-integer literals into `int` fields, and no decoded field of this program
reads the numeric value otherwise. -/
inductive Json where
  | null
  | bool (b : Bool)
  | num (i : Int) (isInt : Bool)
  | str (s : String)
  | arr (elems : List Json)
  | obj (fields : List (String × Json))

/-- Skip JSON insignificant whitespace. -/
def skipWs : List Char → List Char
  | [] => []
  | ch :: rest =>
    if ch = ' ' ∨ ch = '\t' ∨ ch = '\n' ∨ ch = '\r' then skipWs rest
    else ch :: rest

/-- Split a leading run of decimal digits off a character list. -/
def takeDigits : List Char → List Char × List Char
  | [] => ([], [])
  | ch :: rest =>
    if '0' ≤ ch ∧ ch ≤ '9' then
      let p := takeDigits rest
      (ch :: p.1, p.2)
    else ([], ch :: rest)

/-- Decimal value of a digit run. -/
def digitsToNat (ds : List Char) : Nat :=
  ds.foldl (fun a ch => a * 10 + (ch.toNat - 48)) 0

/-- Parse the optional sign-and-digits tail of an exponent part. -/
def parseExpRest (n : Int) (input : List Char) :
    Option ((Int × Bool) × List Char) :=
  let rest := match input with
    | '+' :: r => r
    | '-' :: r => r
    | r => r
  let p := takeDigits rest
  if p.1 = [] then none else some ((n, false), p.2)

/-- Parse an optional exponent part after the integer/fraction parts. -/
def parseExpPart (n : Int) (isInt : Bool) (input : List Char) :
    Option ((Int × Bool) × List Char) :=
  match input with
  | 'e' :: rest => parseExpRest n rest
  | 'E' :: rest => parseExpRest n rest
  | _ => some ((n, isInt), input)

/-- Parse a JSON number literal (optional minus, digits with no leading zero,
optional fraction, optional exponent). -/
def parseNumber (input : List Char) : Option ((Int × Bool) × List Char) :=
  let signAndRest : Bool × List Char :=
    match input with
    | '-' :: r => (true, r)
    | r => (false, r)
  let ds := takeDigits signAndRest.2
  match ds.1 with
  | [] => none
  | d :: moreDs =>
    if d = '0' ∧ moreDs ≠ [] then none
    else
      let n0 : Int := Int.ofNat (digitsToNat ds.1)
      let n : Int := if signAndRest.1 then -n0 else n0
      match ds.2 with
      | '.' :: r3 =>
        let fs := takeDigits r3
        if fs.1 = [] then none else parseExpPart n false fs.2
      | r3 => parseExpPart n true r3

/-- Value of a single escape character other than `\u`. -/
def unescapeChar (ch : Char) : Option Char :=
  if ch = '"' then some '"'
  else if ch = '\\' then some '\\'
  else if ch = '/' then some '/'
  else if ch = 'n' then some '\n'
  else if ch = 't' then some '\t'
  else if ch = 'r' then some '\r'
  else if ch = 'b' then some (Char.ofNat 8)
  else if ch = 'f' then some (Char.ofNat 12)
  else none

/-- Value of a hexadecimal digit. -/
def hexVal (ch : Char) : Option Nat :=
  if '0' ≤ ch ∧ ch ≤ '9' then some (ch.toNat - 48)
  else if 'a' ≤ ch ∧ ch ≤ 'f' then some (ch.toNat - 87)
  else if 'A' ≤ ch ∧ ch ≤ 'F' then some (ch.toNat - 55)
  else none

/-- Parse the body of a JSON string after the opening quote; returns the
decoded characters and the input after the closing quote.  Fueled by the input
length (each step consumes at least one character). -/
def parseStringBody : Nat → List Char → Option (List Char × List Char)
  | 0, _ => none
  | _, [] => none
  | Nat.succ fuel, ch :: rest =>
    if ch = '"' then some ([], rest)
    else if ch = '\\' then
      match rest with
      | [] => none
      | e :: rest2 =>
        if e = 'u' then
          match rest2 with
          | h1 :: h2 :: h3 :: h4 :: rest3 =>
            match hexVal h1, hexVal h2, hexVal h3, hexVal h4 with
            | some a, some b, some c, some d =>
              Option.map
                (fun p =>
                  (Char.ofNat (((a * 16 + b) * 16 + c) * 16 + d) :: p.1, p.2))
                (parseStringBody fuel rest3)
            | _, _, _, _ => none
          | _ => none
        else
          match unescapeChar e with
          | none => none
          | some ch2 =>
            Option.map (fun p => (ch2 :: p.1, p.2)) (parseStringBody fuel rest2)
    else Option.map (fun p => (ch :: p.1, p.2)) (parseStringBody fuel rest)

mutual

/-- Parse one JSON value.  Fueled: every mutual recursion step follows the
consumption of at least one input character, so any fuel larger than the input
length suffices. -/
def parseValue : Nat → List Char → Option (Json × List Char)
  | 0, _ => none
  | Nat.succ fuel, input =>
    match skipWs input with
    | 'n' :: 'u' :: 'l' :: 'l' :: rest => some (Json.null, rest)
    | 't' :: 'r' :: 'u' :: 'e' :: rest => some (Json.bool true, rest)
    | 'f' :: 'a' :: 'l' :: 's' :: 'e' :: rest => some (Json.bool false, rest)
    | '"' :: rest =>
      Option.map (fun p => (Json.str (String.mk p.1), p.2))
        (parseStringBody (rest.length + 1) rest)
    | '[' :: rest =>
      match skipWs rest with
      | ']' :: rest2 => some (Json.arr [], rest2)
      | rest2 =>
        Option.map (fun p => (Json.arr p.1, p.2)) (parseArrayElems fuel rest2)
    | '\x7b' :: rest =>
      match skipWs rest with
      | '\x7d' :: rest2 => some (Json.obj [], rest2)
      | rest2 =>
        Option.map (fun p => (Json.obj p.1, p.2)) (parseObjFields fuel rest2)
    | rest => Option.map (fun p => (Json.num p.1.1 p.1.2, p.2)) (parseNumber rest)

/-- Parse the comma-separated elements of a non-empty JSON array, up to and
including the closing bracket. -/
def parseArrayElems : Nat → List Char → Option (List Json × List Char)
  | 0, _ => none
  | Nat.succ fuel, input =>
    match parseValue fuel input with
    | none => none
    | some (v, rest) =>
      match skipWs rest with
      | ',' :: rest2 =>
        Option.map (fun p => (v :: p.1, p.2)) (parseArrayElems fuel rest2)
      | ']' :: rest2 => some ([v], rest2)
      | _ => none

/-- Parse the comma-separated members of a non-empty JSON object, up to and
including the closing brace. -/
def parseObjFields : Nat → List Char → Option (List (String × Json) × List Char)
  | 0, _ => none
  | Nat.succ fuel, input =>
    match skipWs input with
    | '"' :: rest =>
      match parseStringBody (rest.length + 1) rest with
      | none => none
      | some (key, rest2) =>
        match skipWs rest2 with
        | ':' :: rest3 =>
          match parseValue fuel rest3 with
          | none => none
          | some (v, rest4) =>
            match skipWs rest4 with
            | ',' :: rest5 =>
              Option.map (fun p => ((String.mk key, v) :: p.1, p.2))
                (parseObjFields fuel rest5)
            | '\x7d' :: rest5 => some ([(String.mk key, v)], rest5)
            | _ => none
        | _ => none
    | _ => none

end

/-- Parse a whole JSON text: one value, with nothing but whitespace after it
(Go's `Unmarshal` checks validity of the entire input before decoding, so a
trailing-garbage or truncated input decodes nothing at all). -/
def jsonParse (s : String) : Option Json :=
  match parseValue (s.data.length * 2 + 8) s.data with
  | none => none
  | some (v, rest) => if skipWs rest = [] then some v else none

/-- Embedding of the anonymous choice struct of the Go `LlmResponse` (json
tags: text, index, logprobs, finish_reason).  `Logprobs` is a Go
`interface{}`: an opaque pass-through value, kept here as the raw `Json`
document, with Go's `nil` zero value embedded as `Json.null`. -/
structure LlmChoice where
  Text : String
  Index : Int
  Logprobs : Json
  FinishReason : String

/-- Embedding of the Go struct `LlmResponse` from `frontend-cli/src/main.go`
(json tags: id, object, created, model, choices, usage). -/
structure LlmResponse where
  ID : String
  Object : String
  Created : Int
  Model : String
  Choices : List LlmChoice
  Usage : Json

/-- The zero value of the choice struct. -/
def zeroChoice : LlmChoice :=
  { Text := "", Index := 0, Logprobs := Json.null, FinishReason := "" }

/-- The zero value of `LlmResponse`: what `var llmResponse LlmResponse`
declares before `json.Unmarshal` runs, and what remains when decoding fails. -/
def zeroLlmResponse : LlmResponse :=
  { ID := "", Object := "", Created := 0, Model := "",
    Choices := [], Usage := Json.null }

/-- Look a key up in a decoded JSON object.  Go's `encoding/json` lets a later
duplicate key overwrite an earlier one, hence the last match wins. -/
def getField (fields : List (String × Json)) (name : String) : Option Json :=
  ((fields.filter (fun p => p.1 == name)).getLast?).map Prod.snd

/-- Decode a JSON value into a Go `string` field: anything but a JSON string
(including an absent field and JSON `null`) leaves the zero value `""`. -/
def asString : Option Json → String
  | some (Json.str s) => s
  | _ => ""

/-- Decode a JSON value into a Go `int` field: anything but a pure-integer
JSON number (including an absent field and JSON `null`) leaves the zero
value `0`. -/
def asInt : Option Json → Int
  | some (Json.num i true) => i
  | _ => 0

/-- Decode a JSON value into a Go `interface{}` field: the raw document is
kept; an absent field leaves the zero value `nil` (`Json.null`). -/
def asRaw : Option Json → Json
  | some v => v
  | none => Json.null

/-- Decode one element of the `choices` array; a non-object element leaves the
zero choice. -/
def decodeChoice : Json → LlmChoice
  | Json.obj fields =>
    { Text := asString (getField fields "text"),
      Index := asInt (getField fields "index"),
      Logprobs := asRaw (getField fields "logprobs"),
      FinishReason := asString (getField fields "finish_reason") }
  | _ => zeroChoice

/-- Decode the `choices` field; anything but a JSON array (including an absent
field) leaves the zero value: the empty list. -/
def decodeChoices : Option Json → List LlmChoice
  | some (Json.arr xs) => xs.map decodeChoice
  | _ => []

/-- Decode a parsed JSON document into `LlmResponse`; a non-object document
leaves every field at its zero value. -/
def decodeLlmResponse : Json → LlmResponse
  | Json.obj fields =>
    { ID := asString (getField fields "id"),
      Object := asString (getField fields "object"),
      Created := asInt (getField fields "created"),
      Model := asString (getField fields "model"),
      Choices := decodeChoices (getField fields "choices"),
      Usage := asRaw (getField fields "usage") }
  | _ => zeroLlmResponse

/-- Embedding of `ParseResponse` from `frontend-cli/src/main.go`: it calls
`json.Unmarshal` into a zero-valued `LlmResponse`, IGNORES the returned error,
and returns the record — so a failed parse returns the zero record. -/
def ParseResponse (response : String) : LlmResponse :=
  match jsonParse response with
  | none => zeroLlmResponse
  | some v => decodeLlmResponse v

/-- The Go constant `SampleResponse` from `frontend-cli/src/main.go` (the
sample completions-API body; braces written with hex escapes). -/
def SampleResponse : String :=
  "\x7b\n\t\"id\": \"cmpl-555e840b-6921-44e8-9f6f-ab9fcd859624\",\n\t\"object\": \"text_completion\",\n\t\"created\": 1714891381,\n\t\"model\": \"gpt2\",\n\t\"choices\": [\n\t\t\x7b\n\t\t\t\"text\": \"好\",\n\t\t\t\"index\": 0,\n\t\t\t\"logprobs\": null,\n\t\t\t\"finish_reason\": \"stop\"\n\t\t\x7d\n\t],\n\t\"usage\": \x7b\n\t\t\"prompt_tokens\": 12,\n\t\t\"completion_tokens\": 1,\n\t\t\"total_tokens\": 13\n\t\x7d\n\x7d"

set_option maxRecDepth 100000 in
theorem sampleResponse_first_choice :
    ((ParseResponse SampleResponse).Choices.map LlmChoice.Text) = ["好"] := by
  rfl

/-- The Go driver's reusable `param_template` from `main`
(`frontend-cli/src/main.go` lines 196–204); the `Prompt` field is left at its
zero value `""`. -/
def param_template : LlmGenerationParameters :=
  { ModelName := "", Prompt := "", TopK := 64, TopP := 9/10,
    RepeatPenalty := 12/10, Temperature := 9/10, Stream := false,
    MaxTokens := 32 }

/-- A serialized JSON member value, per the Go struct field types that
`json.Marshal` renders here (string, int, float64, bool). -/
inductive JBody where
  | jstr (s : String)
  | jint (i : Int)
  | jrat (q : ℚ)
  | jbool (b : Bool)
deriving DecidableEq

/-- `json.Marshal` of `LlmGenerationParameters`: for a struct whose json tags
carry no options, Marshal emits exactly one member per struct field, named by
its tag, in struct declaration order. -/
def marshalParams (lgp : LlmGenerationParameters) : List (String × JBody) :=
  [("model", JBody.jstr lgp.ModelName),
   ("prompt", JBody.jstr lgp.Prompt),
   ("top_k", JBody.jint lgp.TopK),
   ("top_p", JBody.jrat lgp.TopP),
   ("repeat_penalty", JBody.jrat lgp.RepeatPenalty),
   ("temperature", JBody.jrat lgp.Temperature),
   ("stream", JBody.jbool lgp.Stream),
   ("max_tokens", JBody.jint lgp.MaxTokens)]

/-- Embedding of `(*LlmGenerationParameters).ToJSON` from
`frontend-cli/src/main.go`: it first runs `CheckAndFix` on the receiver and
then marshals the now-normalized record. -/
def ToJSON (lgp : LlmGenerationParameters) : List (String × JBody) :=
  marshalParams (CheckAndFix lgp)

/-- Outcome of one Transport call: Go's `(string, error)` pair from
`SendPrompt`. -/
inductive TransportResult where
  | err (msg : String)
  | ok (body : String)

/-- Embedding of `SendPrompt` (`frontend-cli/src/main.go` lines 133–151): it
formats the URL from server, port and endpoint, and performs one `http.Post`
whose body is `param_with_prompt.ToJSON()`.  The HTTP layer is an external
collaborator, abstracted as a function from URL and posted body to an
outcome; `SendPrompt` forwards exactly `ToJSON`'s output as the body. -/
def SendPrompt (transport : String → List (String × JBody) → TransportResult)
    (server : String) (port : Int) (endpoint : String)
    (param_with_prompt : LlmGenerationParameters) : TransportResult :=
  transport
    ("http://" ++ server ++ ":" ++ toString port ++ "/" ++ endpoint)
    (ToJSON param_with_prompt)

/-- C8: the body `ToJSON` produces — and the body `SendPrompt` posts — is the
`CheckAndFix`-normalized record serialized with exactly the member names
model, prompt, top_k, top_p, repeat_penalty, temperature, stream, max_tokens,
in that order and no others, each member carrying the corresponding
normalized field value. -/
theorem C8_toJSON_normalized_exact_fields (p : LlmGenerationParameters)
    (transport : String → List (String × JBody) → TransportResult)
    (server : String) (port : Int) (endpoint : String) :
    (ToJSON p).map Prod.fst =
      ["model", "prompt", "top_k", "top_p", "repeat_penalty", "temperature",
       "stream", "max_tokens"] ∧
    ToJSON p =
      [("model", JBody.jstr (CheckAndFix p).ModelName),
       ("prompt", JBody.jstr (CheckAndFix p).Prompt),
       ("top_k", JBody.jint (CheckAndFix p).TopK),
       ("top_p", JBody.jrat (CheckAndFix p).TopP),
       ("repeat_penalty", JBody.jrat (CheckAndFix p).RepeatPenalty),
       ("temperature", JBody.jrat (CheckAndFix p).Temperature),
       ("stream", JBody.jbool (CheckAndFix p).Stream),
       ("max_tokens", JBody.jint (CheckAndFix p).MaxTokens)] ∧
    SendPrompt transport server port endpoint p =
      transport
        ("http://" ++ server ++ ":" ++ toString port ++ "/" ++ endpoint)
        (ToJSON p) :=
  ⟨rfl, rfl, rfl⟩

/-- C6: `ParseResponse` is a plain total function — the Go code discards
`json.Unmarshal`'s error, so no decode error reaches the caller — and on any
body that fails to parse as JSON (the empty body, any malformed body) it
returns the zero record: empty id, zero timestamp, empty choices sequence,
nil usage. -/
theorem C6_parseResponse_malformed_yields_zero (s : String)
    (h : jsonParse s = none) :
    ParseResponse s = zeroLlmResponse ∧ (ParseResponse s).Choices = [] := by
  refine ⟨?_, ?_⟩ <;> simp [ParseResponse, h, zeroLlmResponse]

/-- C6 witness: the empty body fails to parse and decodes to the zero record
with an empty choices sequence. -/
theorem C6_parseResponse_malformed_yields_zero_witness :
    jsonParse "" = none ∧
      (ParseResponse "" = zeroLlmResponse ∧ (ParseResponse "").Choices = []) :=
  ⟨rfl, C6_parseResponse_malformed_yields_zero "" rfl⟩

/-- Observable actions of `modelIoHandler`'s inner retry loop, one event per
side effect of the loop body. -/
inductive WorkerEvent where
  | send (req : LlmGenerationParameters)
  | logError (msg : String)
  | sleepSeconds (n : Nat)
  | push (text : String)
  | crash

/-- Embedding of the inner `for` loop of `modelIoHandler`
(`frontend-cli/src/main.go` lines 170–186), run against a finite script of
Transport outcomes.  On an error outcome the loop logs the error, sleeps a
fixed 1 second (`time.Sleep(1 * time.Second)`) and `continue`s with the SAME
request — the variable `param_with_prompt` is never reassigned, and there is
no attempt counter and no backoff growth.  On a success it evaluates
`ParseResponse(response).Choices[0].Text`: an UNGUARDED index 0, which is a
Go index-out-of-range panic (`crash`) when the decoded choices sequence is
empty, and otherwise pushes the text to the outbound queue and leaves the
loop.  An exhausted script means the loop is still retrying. -/
def retryLoop (req : LlmGenerationParameters) :
    List TransportResult → List WorkerEvent
  | [] => []
  | TransportResult.err msg :: rest =>
    WorkerEvent.send req :: WorkerEvent.logError msg ::
      WorkerEvent.sleepSeconds 1 :: retryLoop req rest
  | TransportResult.ok body :: _ =>
    WorkerEvent.send req ::
      (match (ParseResponse body).Choices with
       | [] => [WorkerEvent.crash]
       | choice :: _ => [WorkerEvent.push choice.Text])

/-- C1: the claim says the worker's extraction step pushes a sentinel empty
string when the decoded choices sequence is empty and never aborts.  The code
(`frontend-cli/src/main.go` line 180) instead indexes `Choices[0]`
unconditionally: at the failing input — a successful Transport call whose
response body is malformed (here the empty body), so that the decoded choices
sequence is empty — the extraction aborts (index-out-of-range panic, `crash`
in the event model) and nothing is pushed. -/
theorem C1_empty_choices_extraction_aborts :
    (ParseResponse "").Choices = [] ∧
      retryLoop param_template [TransportResult.ok ""] =
        [WorkerEvent.send param_template, WorkerEvent.crash] :=
  ⟨rfl, rfl⟩

/-- C2: against any finite script of Transport failures followed by a success
whose body decodes to a non-empty choices sequence, the retry loop emits, per
failed attempt, a send of the SAME unmodified request, one logged error and
one fixed 1-second sleep — never a push — and finally one more send of the
same request followed by exactly one push: the first successful response's
first choice text.  And against a script of failures only, it emits only such
failure blocks: no attempt limit, no backoff growth, no push. -/
theorem C2_retry_same_request_until_success
    (req : LlmGenerationParameters) (errs : List String) (body : String)
    (choice : LlmChoice) (more : List LlmChoice)
    (h : (ParseResponse body).Choices = choice :: more) :
    retryLoop req (errs.map TransportResult.err ++ [TransportResult.ok body]) =
      (errs.flatMap fun msg =>
        [WorkerEvent.send req, WorkerEvent.logError msg,
         WorkerEvent.sleepSeconds 1]) ++
        [WorkerEvent.send req, WorkerEvent.push choice.Text] ∧
    retryLoop req (errs.map TransportResult.err) =
      (errs.flatMap fun msg =>
        [WorkerEvent.send req, WorkerEvent.logError msg,
         WorkerEvent.sleepSeconds 1]) := by
  constructor
  · induction errs with
    | nil => simp [retryLoop, h]
    | cons e es ih => simpa [retryLoop] using ih
  · induction errs with
    | nil => rfl
    | cons e es ih => simpa [retryLoop] using ih

set_option maxRecDepth 100000 in
/-- C2 witness: the spec's end-to-end retry test — a Transport that fails
twice and then succeeds with the sample body: two log/sleep failure blocks
with the same request re-sent, then exactly one push, of `"好"`. -/
theorem C2_retry_same_request_until_success_witness :
    (ParseResponse SampleResponse).Choices =
      { Text := "好", Index := 0, Logprobs := Json.null,
        FinishReason := "stop" } :: [] ∧
    retryLoop param_template
        ((["refused", "refused"].map TransportResult.err) ++
          [TransportResult.ok SampleResponse]) =
      [WorkerEvent.send param_template, WorkerEvent.logError "refused",
       WorkerEvent.sleepSeconds 1, WorkerEvent.send param_template,
       WorkerEvent.logError "refused", WorkerEvent.sleepSeconds 1,
       WorkerEvent.send param_template, WorkerEvent.push "好"] :=
  ⟨rfl,
    (C2_retry_same_request_until_success param_template ["refused", "refused"]
      SampleResponse
      { Text := "好", Index := 0, Logprobs := Json.null,
        FinishReason := "stop" } [] rfl).1⟩

/-- The externally visible effect of one iteration of the frontend-cli driver
loop on a line of user input. -/
inductive DriverAction where
  | enqueue (req : LlmGenerationParameters)
  | terminate

/-- Embedding of one iteration of the frontend-cli driver loop
(`frontend-cli/src/main.go` lines 222–238): the loop body unconditionally
builds `param_template.SetPrompt(FormatPrompt(user_input))` and sends it to
the inbound queue; the source contains no comparison of the input with
"exit", no `break`, and no cancellation of the worker's context (`ctx` is
`context.Background()`, which has no cancel function). -/
def frontendDriverStep (template : LlmGenerationParameters)
    (user_input : String) : DriverAction :=
  DriverAction.enqueue (SetPrompt template (FormatPrompt user_input))

/-- The externally visible effect of one iteration of the basic driver loop
in `src/main.go`. -/
inductive BasicDriverAction where
  | exitLoop
  | logFormatted (s : String)

/-- Embedding of `formatPrompt` from `src/main.go` (same body as the
frontend-cli `FormatPrompt`). -/
def formatPrompt (prompt : String) : String :=
  String.mk (spliceFormat CHAT_TEMPLATE.data prompt)

/-- Embedding of one iteration of the basic driver loop (`src/main.go` lines
71–87): input equal to "exit" breaks the loop; any other input is formatted
and logged.  That program has no worker, no queue and no cancellation at
all. -/
def basicDriverStep (user_input : String) : BasicDriverAction :=
  if user_input = "exit" then BasicDriverAction.exitLoop
  else BasicDriverAction.logFormatted (formatPrompt user_input)

/-- C3: the claim says the Interactive Driver, on the input "exit", signals
cancellation and terminates without enqueuing a request.  At that failing
input the frontend-cli driver — the only driver with a worker — instead
formats "exit" and enqueues it as an ordinary request; indeed every iteration
of that loop enqueues, so it never terminates and never cancels.  Only the
basic driver of `src/main.go`, which has no worker to signal, breaks on
"exit". -/
theorem C3_frontend_driver_enqueues_exit :
    frontendDriverStep param_template "exit" =
      DriverAction.enqueue (SetPrompt param_template (FormatPrompt "exit")) ∧
    (∀ t : LlmGenerationParameters, ∀ input : String,
      ∃ req, frontendDriverStep t input = DriverAction.enqueue req) ∧
    basicDriverStep "exit" = BasicDriverAction.exitLoop :=
  ⟨rfl, fun t input => ⟨SetPrompt t (FormatPrompt input), rfl⟩, rfl⟩

/-! Two-task pipeline model for the channel claims.

`main` creates `param_with_prompt_queue := make(chan LlmGenerationParameters)`
and `model_response_queue := make(chan string)`: both UNBUFFERED.  A Go
operation on an unbuffered channel is a rendezvous: a send and its matching
receive complete together, and only when both sides are at the channel — a
sender whose peer is not at the channel blocks, and no value is ever stored,
dropped or overwritten.  The model below is a small-step semantics of the two
tasks of `main`: the foreground driver loop and the `modelIoHandler`
goroutine; each rendezvous appends one event to the trace. -/

/-- Where the foreground driver loop is. -/
inductive DriverPhase where
  | reading
  | sendingReq (req : LlmGenerationParameters)
  | awaitingResp

/-- Where the `modelIoHandler` goroutine is. -/
inductive WorkerPhase where
  | waitingForRequest
  | working (req : LlmGenerationParameters)
  | pushingResp (text : String)

/-- A completed rendezvous on one of the two channels. -/
inductive PipeEvent where
  | handoff (req : LlmGenerationParameters)
  | deliver (text : String)

/-- Combined state of the two tasks plus the trace of completed channel
rendezvous, oldest first. -/
structure PipelineState where
  driver : DriverPhase
  worker : WorkerPhase
  trace : List PipeEvent

/-- Small-step semantics of the pipeline.  `readLine` is the driver reading a
line and building the request from the template; `handoff` is the rendezvous
on the inbound channel (enabled only with the driver at its send and the
worker at its receive — otherwise the sender blocks, which is the absence of
any other step for it); `workFail` is one failed Transport attempt of the
retry loop (request kept); `workSucceed` is a successful attempt;
`deliver` is the rendezvous on the outbound channel. -/
inductive PipeStep : PipelineState → PipelineState → Prop where
  | readLine (input : String) (w : WorkerPhase) (tr : List PipeEvent) :
      PipeStep ⟨DriverPhase.reading, w, tr⟩
        ⟨DriverPhase.sendingReq (SetPrompt param_template (FormatPrompt input)),
         w, tr⟩
  | handoff (req : LlmGenerationParameters) (tr : List PipeEvent) :
      PipeStep ⟨DriverPhase.sendingReq req, WorkerPhase.waitingForRequest, tr⟩
        ⟨DriverPhase.awaitingResp, WorkerPhase.working req,
         tr ++ [PipeEvent.handoff req]⟩
  | workFail (d : DriverPhase) (req : LlmGenerationParameters)
      (tr : List PipeEvent) :
      PipeStep ⟨d, WorkerPhase.working req, tr⟩
        ⟨d, WorkerPhase.working req, tr⟩
  | workSucceed (d : DriverPhase) (req : LlmGenerationParameters)
      (text : String) (tr : List PipeEvent) :
      PipeStep ⟨d, WorkerPhase.working req, tr⟩
        ⟨d, WorkerPhase.pushingResp text, tr⟩
  | deliver (text : String) (tr : List PipeEvent) :
      PipeStep ⟨DriverPhase.awaitingResp, WorkerPhase.pushingResp text, tr⟩
        ⟨DriverPhase.reading, WorkerPhase.waitingForRequest,
         tr ++ [PipeEvent.deliver text]⟩

/-- The state `main` starts in: driver about to read, worker blocked on the
inbound channel, nothing exchanged yet. -/
def initState : PipelineState :=
  ⟨DriverPhase.reading, WorkerPhase.waitingForRequest, []⟩

/-- Reachability from the initial state. -/
def Reachable (s : PipelineState) : Prop :=
  Relation.ReflTransGen PipeStep initState s

/-- Whether an event is an inbound-channel rendezvous. -/
def isHandoff : PipeEvent → Bool
  | PipeEvent.handoff _ => true
  | PipeEvent.deliver _ => false

/-- Number of requests handed to the worker in a trace. -/
def handoffCount (tr : List PipeEvent) : Nat :=
  (tr.filter isHandoff).length

/-- Number of responses delivered to the driver in a trace. -/
def deliverCount (tr : List PipeEvent) : Nat :=
  (tr.filter (fun e => !isHandoff e)).length

/-- Traces made of complete alternating handoff/deliver pairs: every
handed-off request has had a response delivered. -/
inductive BalancedTrace : List PipeEvent → Prop where
  | nil : BalancedTrace []
  | pair (tr : List PipeEvent) (req : LlmGenerationParameters) (text : String) :
      BalancedTrace tr →
      BalancedTrace (tr ++ [PipeEvent.handoff req, PipeEvent.deliver text])

theorem balancedTrace_counts (tr : List PipeEvent) (h : BalancedTrace tr) :
    handoffCount tr = deliverCount tr := by
  induction h with
  | nil => rfl
  | pair tr req text hb ih =>
    simp only [handoffCount, deliverCount, List.filter_append,
      List.length_append] at *
    simp [isHandoff, ih]

/-- The inductive invariant: the worker's phase determines the shape of the
trace; while the worker holds a request, the trace ends with exactly that
request's handoff (the request is neither dropped nor overwritten), all
earlier traffic is fully paired, and the driver is blocked awaiting the
reply. -/
def PipeInv (s : PipelineState) : Prop :=
  match s.worker with
  | WorkerPhase.waitingForRequest => BalancedTrace s.trace
  | WorkerPhase.working req =>
      s.driver = DriverPhase.awaitingResp ∧
      ∃ tr, s.trace = tr ++ [PipeEvent.handoff req] ∧ BalancedTrace tr
  | WorkerPhase.pushingResp _ =>
      s.driver = DriverPhase.awaitingResp ∧
      ∃ req tr, s.trace = tr ++ [PipeEvent.handoff req] ∧ BalancedTrace tr

theorem pipeInv_step (s t : PipelineState) (h : PipeStep s t)
    (hs : PipeInv s) : PipeInv t := by
  cases h with
  | readLine input w tr =>
    cases w with
    | waitingForRequest => exact hs
    | working req => exact absurd hs.1 (by simp)
    | pushingResp text => exact absurd hs.1 (by simp)
  | handoff req tr => exact ⟨rfl, tr, rfl, hs⟩
  | workFail d req tr => exact hs
  | workSucceed d req text tr =>
    obtain ⟨hd, tr0, htr, hb⟩ := hs
    exact ⟨hd, req, tr0, htr, hb⟩
  | deliver text tr =>
    obtain ⟨hd, req, tr0, htr, hb⟩ := hs
    simp only at htr
    show BalancedTrace (tr ++ [PipeEvent.deliver text])
    rw [htr, List.append_assoc]
    exact BalancedTrace.pair tr0 req text hb

theorem pipeInv_reachable (s : PipelineState) (h : Reachable s) : PipeInv s := by
  induction h with
  | refl => exact BalancedTrace.nil
  | tail hsteps hstep ih => exact pipeInv_step _ _ hstep ih

/-- C9: because the two hand-off channels are unbuffered rendezvous channels,
every reachable state of the pipeline has strict one-in-flight alternation:
the number of requests handed to the worker never exceeds the number of
delivered responses by more than one (so a second push cannot complete — it
blocks — until the first outbound value is consumed), and while the worker
holds a request the trace ends with exactly that request's handoff: the
pending request is never silently dropped or overwritten. -/
theorem C9_unbuffered_strict_alternation (s : PipelineState)
    (h : Reachable s) :
    deliverCount s.trace ≤ handoffCount s.trace ∧
    handoffCount s.trace ≤ deliverCount s.trace + 1 ∧
    (∀ req : LlmGenerationParameters, s.worker = WorkerPhase.working req →
      ∃ tr, s.trace = tr ++ [PipeEvent.handoff req] ∧
        handoffCount tr = deliverCount tr) := by
  have hinv := pipeInv_reachable s h
  obtain ⟨d, w, tr⟩ := s
  cases w with
  | waitingForRequest =>
    have hc := balancedTrace_counts _ hinv
    refine ⟨le_of_eq hc.symm, by omega, ?_⟩
    intro req hreq
    exact absurd hreq (by simp)
  | working req =>
    obtain ⟨hd, tr0, htr, hb⟩ := hinv
    have hc := balancedTrace_counts _ hb
    simp only at htr
    subst htr
    constructor
    · simp [handoffCount, deliverCount, List.filter_append, isHandoff] at *
      omega
    constructor
    · simp [handoffCount, deliverCount, List.filter_append, isHandoff] at *
      omega
    · intro req2 hreq2
      simp only [WorkerPhase.working.injEq] at hreq2
      subst hreq2
      exact ⟨tr0, rfl, hc⟩
  | pushingResp text =>
    obtain ⟨hd, req, tr0, htr, hb⟩ := hinv
    have hc := balancedTrace_counts _ hb
    simp only at htr
    subst htr
    constructor
    · simp [handoffCount, deliverCount, List.filter_append, isHandoff] at *
      omega
    constructor
    · simp [handoffCount, deliverCount, List.filter_append, isHandoff] at *
      omega
    · intro req2 hreq2
      exact absurd hreq2 (by simp)

/-- C9 witness: the concrete run read("你好") → handoff → success, reaching
the state where the worker holds the request and the driver awaits the reply:
one handoff, zero delivers, and the trace ends with the held request's
handoff. -/
theorem C9_unbuffered_strict_alternation_witness :
    deliverCount [PipeEvent.handoff (SetPrompt param_template
        (FormatPrompt "你好"))] ≤
      handoffCount [PipeEvent.handoff (SetPrompt param_template
        (FormatPrompt "你好"))] ∧
    handoffCount [PipeEvent.handoff (SetPrompt param_template
        (FormatPrompt "你好"))] ≤
      deliverCount [PipeEvent.handoff (SetPrompt param_template
        (FormatPrompt "你好"))] + 1 ∧
    (∀ req : LlmGenerationParameters,
      WorkerPhase.working (SetPrompt param_template (FormatPrompt "你好")) =
        WorkerPhase.working req →
      ∃ tr,
        [PipeEvent.handoff (SetPrompt param_template (FormatPrompt "你好"))] =
          tr ++ [PipeEvent.handoff req] ∧
        handoffCount tr = deliverCount tr) :=
  C9_unbuffered_strict_alternation
    ⟨DriverPhase.awaitingResp,
     WorkerPhase.working (SetPrompt param_template (FormatPrompt "你好")),
     [PipeEvent.handoff (SetPrompt param_template (FormatPrompt "你好"))]⟩
    (Relation.ReflTransGen.tail
      (Relation.ReflTransGen.tail Relation.ReflTransGen.refl
        (PipeStep.readLine "你好" WorkerPhase.waitingForRequest []))
      (PipeStep.handoff (SetPrompt param_template (FormatPrompt "你好")) []))

end MemeChat
